import Mathlib

/-!
# Verification of the NexgenOps power-dashboard core logic

Shallow embedding of `src/app.py` (a Flask + SQLite meter-tracking app).

Modelling conventions:
* SQLite `REAL` values are modelled by `ℚ` (exact arithmetic in place of
  IEEE floats; none of the verified properties depends on float rounding).
* Each table is a Lean list of row records, kept in insertion order.
  `AUTOINCREMENT` row ids are assigned as `length + 1`, and rows are only
  ever appended, so list order coincides with `ORDER BY id` ascending and
  `ORDER BY id DESC` is `List.reverse`.
* SQL `LIKE 'p%'` with a wildcard-free pattern `p` (the date prefixes the
  app builds with `strftime` contain only digits, dashes and spaces) is
  string-prefix matching; `SUBSTR(s,1,n)` is `take n` on the characters.
* Python's `round(x, 2)` is modelled by rounding `x * 100` to the nearest
  integer and dividing by 100.
* `sqlite3` raises `OperationalError` when a statement names a column that
  does not exist in the table; statements are checked against the column
  list of the `CREATE TABLE` in `init_db`.  Fallible operations return
  `Except String DB`; an error means the request fails with an unhandled
  exception and the storage state is unchanged.
-/

/-- Two-decimal rounding, modelling Python `round(x, 2)` on the exact value. -/
def round2 (x : ℚ) : ℚ := (round (x * 100) : ℤ) / 100

/-- `p` is a character-wise prefix of `s`: models SQL `s LIKE p || chr(37)`
for the wildcard-free patterns the app uses. -/
def strPref (p s : String) : Bool := p.data.isPrefixOf s.data

/-- The first `n` characters of `s`: models SQLite `SUBSTR(s, 1, n)`. -/
def strTake (s : String) (n : Nat) : String := ⟨s.data.take n⟩

/-- SQL `SUM` over a column: `NULL` (`none`) on an empty row set. -/
def sqlSum (l : List ℚ) : Option ℚ := if l.isEmpty then none else some l.sum

/-- SQL `IFNULL(v, d)`. -/
def ifnull (v : Option ℚ) (d : ℚ) : ℚ := v.getD d

/-- A row of the `meters` table (`init_db`, app.py:34-41). -/
structure Meter where
  id : Nat
  meter_id : String
  load_type : String
  location : String
  unit : String
deriving DecidableEq, Repr

/-- A row of the `readings` table (`init_db`, app.py:42-53). -/
structure Reading where
  id : Nat
  meter_id : String
  date : String
  opening : ℚ
  closing : ℚ
  consumption : ℚ
  entered_by : String
  employee_id : String
  image : Option String
deriving DecidableEq, Repr

/-- An `alerts` row, with the full logical schema of the alert lifecycle
(spec §6).  The table `init_db` actually creates contains only the first
seven columns — see `alertsTableColumns` below; the lifecycle fields are
`none` at creation and can only become set if the corresponding `UPDATE`
succeeds. -/
structure Alert where
  id : Nat
  meter_id : String
  date : String
  consumption : ℚ
  average : ℚ
  percentage : ℚ
  status : String
  acknowledged_by : Option String := none
  acknowledged_at : Option String := none
  closed_by : Option String := none
  closed_at : Option String := none
deriving DecidableEq, Repr

/-- The columns of the `alerts` table as created by `init_db`
(app.py:24-33).  Note the lifecycle columns (`acknowledged_by`,
`acknowledged_at`, `closed_by`, `closed_at`) are NOT created. -/
def alertsTableColumns : List String :=
  ["id", "meter_id", "date", "consumption", "average", "percentage", "status"]

/-- The database state: the three tables of `init_db`, each in insertion
order. -/
structure DB where
  meters : List Meter
  readings : List Reading
  alerts : List Alert
deriving DecidableEq, Repr

/-- The empty database produced by `init_db` on a fresh file. -/
def DB.empty : DB := ⟨[], [], []⟩

/-! ## Anomaly Detector (`check_abnormal`, app.py:58-102) -/

/-- Consumption values of a meter's readings, most recent first: the query
`SELECT consumption FROM readings WHERE meter_id=? ORDER BY id DESC`. -/
def consDesc (db : DB) (m : String) : List ℚ :=
  ((db.readings.filter (fun r => r.meter_id == m)).map (fun r => r.consumption)).reverse

/-- The latest reading's consumption (`... ORDER BY id DESC LIMIT 1`,
app.py:62-66); `none` when the meter has no readings. -/
def latestConsumption (db : DB) (m : String) : Option ℚ :=
  (consDesc db m).head?

/-- The up-to-7 consumption values immediately preceding the latest reading
(`... ORDER BY id DESC LIMIT 7 OFFSET 1`, app.py:73-79). -/
def trailingWindow (db : DB) (m : String) : List ℚ :=
  ((consDesc db m).drop 1).take 7

/-- The trailing average: SQL `AVG` over `trailingWindow`, with the `NULL`
result of an empty window replaced by `0` (app.py:81). -/
def trailingAvg (db : DB) (m : String) : ℚ :=
  let w := trailingWindow db m
  if w.isEmpty then 0 else w.sum / (w.length : ℚ)

/-- The alert row `check_abnormal` inserts when it fires (app.py:88-99). -/
def newAlert (db : DB) (m now : String) (t avg percent : ℚ) : Alert :=
  { id := db.alerts.length + 1, meter_id := m, date := now, consumption := t,
    average := round2 avg, percentage := round2 percent, status := "OPEN" }

/-- `check_abnormal(meter_id)` (app.py:58-102): fetch the latest reading
(return if none), average the up-to-7 preceding readings (0 if none),
return if the average is ≤ 0, else compute the percentage deviation and
insert an OPEN alert when it is ≥ 30.  `now` is the timestamp string
`datetime.now().strftime` produces. -/
def check_abnormal (now m : String) (db : DB) : DB :=
  match latestConsumption db m with
  | none => db
  | some today_val =>
    let avg := trailingAvg db m
    if avg ≤ 0 then db
    else
      let percent := (today_val - avg) / avg * 100
      if 30 ≤ percent then
        { db with alerts := db.alerts ++ [newAlert db m now today_val avg percent] }
      else db

/-! ## Reading Recorder (`add_reading`, app.py:220-257) -/

/-- The reading row the POST handler inserts (app.py:239-250). -/
def mkReading (db : DB) (m now : String) (opening closing : ℚ)
    (eb ei : String) (img : Option String) : Reading :=
  { id := db.readings.length + 1, meter_id := m, date := now,
    opening := opening, closing := closing, consumption := closing - opening,
    entered_by := eb, employee_id := ei, image := img }

/-- The successful POST branch of `add_reading` after the numeric form
fields have been converted: compute `consumption = closing - opening`,
insert the reading, commit, then run `check_abnormal` for the meter
(app.py:226-252). -/
def add_reading (now m : String) (opening closing : ℚ)
    (eb ei : String) (img : Option String) (db : DB) : DB :=
  check_abnormal now m { db with readings := db.readings ++ [mkReading db m now opening closing eb ei img] }

/-- The POST branch of `add_reading` at the request level, with the raw
form strings.  `pf` models the external Python builtin `float`: `none`
when the string is not parseable as a number, in which case `float(...)`
raises `ValueError` before the `INSERT` is reached (app.py:227-228) and the
request fails with the uncaught exception. -/
def add_reading_route (pf : String → Option ℚ) (now m : String)
    (openingS closingS : String) (eb ei : String) (img : Option String)
    (db : DB) : Except String DB :=
  match pf openingS with
  | none => Except.error "ValueError"
  | some opening =>
    match pf closingS with
    | none => Except.error "ValueError"
    | some closing => Except.ok (add_reading now m opening closing eb ei img db)

/-! ## Alert Lifecycle Manager (app.py:309-340)

`acknowledge_alert` runs
`UPDATE alerts SET status=..., acknowledged_by=..., acknowledged_at=... WHERE id=?`
and `close_alert` runs
`UPDATE alerts SET status=..., closed_by=..., closed_at=... WHERE id=?`.
sqlite3 checks the column names of the SET list against the table's schema
when it prepares the statement and raises
`OperationalError: no such column: c` for the first column `c` that the
table does not have — independently of whether any row matches `WHERE`. -/

/-- An `UPDATE alerts SET ... WHERE id=?`: first the SET column names are
checked against the columns `init_db` created; only if all exist is the row
transformation applied to every matching row. -/
def updateAlerts (setCols : List String) (f : Alert → Alert) (aid : Nat)
    (db : DB) : Except String DB :=
  match setCols.find? (fun c => !(alertsTableColumns.contains c)) with
  | some c => Except.error ("no such column: " ++ c)
  | none => Except.ok { db with alerts := db.alerts.map (fun a => if a.id == aid then f a else a) }

/-- `acknowledge_alert` (app.py:309-323). -/
def acknowledge_alert (now : String) (aid : Nat) (db : DB) : Except String DB :=
  updateAlerts ["status", "acknowledged_by", "acknowledged_at"]
    (fun a => { a with status := "ACKNOWLEDGED",
                       acknowledged_by := some "Operator",
                       acknowledged_at := some now })
    aid db

/-- `close_alert` (app.py:326-340). -/
def close_alert (now : String) (aid : Nat) (db : DB) : Except String DB :=
  updateAlerts ["status", "closed_by", "closed_at"]
    (fun a => { a with status := "CLOSED",
                       closed_by := some "Operator",
                       closed_at := some now })
    aid db

/-! ## Meter registration (`add_meter`, app.py:176-194) -/

/-- The POST branch of `add_meter`: `meter_id` carries a UNIQUE constraint,
so inserting a duplicate raises `IntegrityError`. -/
def add_meter (m load_type location unit : String) (db : DB) : Except String DB :=
  if db.meters.any (fun x => x.meter_id == m) then
    Except.error "IntegrityError"
  else
    Except.ok { db with meters := db.meters ++
      [{ id := db.meters.length + 1, meter_id := m, load_type := load_type,
         location := location, unit := unit }] }

/-! ## KPI Aggregator (`home`, app.py:105-173) -/

/-- The calendar-day key of a reading: `SUBSTR(date,1,10)`. -/
def dayOf (r : Reading) : String := strTake r.date 10

/-- The distinct calendar-day keys among all readings (the groups of
`GROUP BY SUBSTR(date,1,10)`). -/
def dayKeys (db : DB) : List String := (db.readings.map dayOf).dedup

/-- The per-day consumption sum of group `k`. -/
def daySum (db : DB) (k : String) : ℚ :=
  ((db.readings.filter (fun r => dayOf r == k)).map (fun r => r.consumption)).sum

/-- The rows of the daily query (app.py:137-143): one `(day, SUM)` pair per
distinct day, ordered by day descending, `LIMIT 7`. -/
def dailyDesc (db : DB) : List (String × ℚ) :=
  (((dayKeys db).mergeSort (fun a b => decide (b ≤ a))).map (fun k => (k, daySum db k))).take 7

/-- The distinct month keys among readings of the current month (the groups
of the monthly query, app.py:150-155). -/
def monthKeys (db : DB) (month : String) : List String :=
  ((db.readings.filter (fun r => strPref month r.date)).map (fun r => strTake r.date 7)).dedup

/-- The per-month consumption sum of group `k` within the `LIKE` filter. -/
def monthSum (db : DB) (month k : String) : ℚ :=
  (((db.readings.filter (fun r => strPref month r.date)).filter
      (fun r => strTake r.date 7 == k)).map (fun r => r.consumption)).sum

/-- The rows of the monthly query, in the group-key ascending order
SQLite's GROUP BY produces. -/
def monthlyAsc (db : DB) (month : String) : List (String × ℚ) :=
  ((monthKeys db month).mergeSort (fun a b => decide (a ≤ b))).map
    (fun k => (k, monthSum db month k))

/-- Sum of consumption over readings whose date starts with `p`
(`SELECT IFNULL(SUM(consumption),0) FROM readings WHERE date LIKE p-percent`,
app.py:126-134). -/
def sumWithDatePref (db : DB) (p : String) : ℚ :=
  ifnull (sqlSum ((db.readings.filter (fun r => strPref p r.date)).map
    (fun r => r.consumption))) 0

/-- Everything the dashboard view computes and hands to the template
(app.py:160-171). -/
structure Kpis where
  recent_alerts : List Alert
  open_alerts : Nat
  total_meters : Nat
  total_readings : Nat
  today_consumption : ℚ
  month_consumption : ℚ
  daily_labels : List String
  daily_values : List ℚ
  month_labels : List String
  month_values : List ℚ
deriving DecidableEq, Repr

/-- The dashboard computation `home` (app.py:105-173).  `today` and `month`
are the strings `datetime.now().strftime` produces for the current day and
month. -/
def home (today month : String) (db : DB) : Kpis :=
  let daily := (dailyDesc db).reverse
  { recent_alerts := ((db.alerts.filter (fun a => !(a.status == "CLOSED"))).reverse).take 5
    open_alerts := (db.alerts.filter (fun a => a.status == "OPEN")).length
    total_meters := db.meters.length
    total_readings := db.readings.length
    today_consumption := round2 (sumWithDatePref db today)
    month_consumption := round2 (sumWithDatePref db month)
    daily_labels := daily.map Prod.fst
    daily_values := daily.map (fun p => round2 p.snd)
    month_labels := (monthlyAsc db month).map Prod.fst
    month_values := (monthlyAsc db month).map (fun p => round2 p.snd) }

/-- The `/` route at the request level: `home` only executes SELECT
statements, so it returns the rendered data and leaves the storage state
exactly as it found it. -/
def homeReq (today month : String) (db : DB) : Kpis × DB :=
  (home today month db, db)

/-! ## Request-level operation semantics -/

/-- The storage-mutating operations of the app. -/
inductive Op where
  | addMeter (m load_type location unit : String)
  | addReading (now m : String) (opening closing : ℚ) (eb ei : String) (img : Option String)
  | checkAbnormal (now m : String)
  | ack (now : String) (aid : Nat)
  | close (now : String) (aid : Nat)
deriving DecidableEq, Repr

/-- Apply one operation; a request that dies with an exception leaves the
storage unchanged. -/
def applyOp : Op → DB → DB
  | .addMeter m lt loc u, db => ((add_meter m lt loc u db).toOption).getD db
  | .addReading now m o c eb ei img, db => add_reading now m o c eb ei img db
  | .checkAbnormal now m, db => check_abnormal now m db
  | .ack now aid, db => ((acknowledge_alert now aid db).toOption).getD db
  | .close now aid, db => ((close_alert now aid db).toOption).getD db

/-- Run a sequence of operations. -/
def run (ops : List Op) (db : DB) : DB := ops.foldl (fun d op => applyOp op d) db

/-! ## Concrete sample states (used by the witnesses below) -/

/-- A database holding one reading per entry of `l` (all for meter `"M1"`,
in insertion order), as produced by repeated inserts. -/
def sampleDb (l : List ℚ) : DB :=
  { meters := [{ id := 1, meter_id := "M1", load_type := "HT", location := "L", unit := "kWh" }],
    readings := l.enum.map (fun p =>
      { id := p.1 + 1, meter_id := "M1", date := "2025-01-01 00:00",
        opening := 0, closing := p.2, consumption := p.2,
        entered_by := "op", employee_id := "E1", image := none }),
    alerts := [] }

example :
    (check_abnormal "2025-01-08 09:00" "M1" (sampleDb [10,10,10,10,10,10,10,20])).alerts =
      [{ id := 1, meter_id := "M1", date := "2025-01-08 09:00", consumption := 20,
         average := 10, percentage := 100, status := "OPEN" }] := by
  with_unfolding_all decide

example : trailingAvg (sampleDb [10,10,10,10,10,10,10,20]) "M1" = 10 := by
  with_unfolding_all decide

example : check_abnormal "T" "M1" (sampleDb [10,10,10,10,10,10,10,12]) =
    sampleDb [10,10,10,10,10,10,10,12] := by
  with_unfolding_all decide

/-! ## Basic lemmas about `check_abnormal` -/

/-- The percentage deviation computed at app.py:85. -/
def deviationPct (db : DB) (m : String) (t : ℚ) : ℚ :=
  (t - trailingAvg db m) / trailingAvg db m * 100

lemma check_abnormal_of_none {db : DB} {m : String} (now : String)
    (h : latestConsumption db m = none) : check_abnormal now m db = db := by
  unfold check_abnormal
  rw [h]

lemma check_abnormal_of_nonpos {db : DB} {m : String} (now : String)
    (h : trailingAvg db m ≤ 0) : check_abnormal now m db = db := by
  unfold check_abnormal
  cases hl : latestConsumption db m with
  | none => rfl
  | some t => simp only [if_pos h]

lemma check_abnormal_of_lt30 {db : DB} {m : String} {t : ℚ} (now : String)
    (ht : latestConsumption db m = some t) (havg : 0 < trailingAvg db m)
    (hp : deviationPct db m t < 30) : check_abnormal now m db = db := by
  unfold deviationPct at hp
  unfold check_abnormal
  rw [ht]
  simp only [if_neg (not_le.mpr havg), if_neg (not_le.mpr hp)]

lemma check_abnormal_fires {db : DB} {m : String} {t : ℚ} (now : String)
    (ht : latestConsumption db m = some t) (havg : 0 < trailingAvg db m)
    (hp : 30 ≤ deviationPct db m t) :
    check_abnormal now m db =
      { db with alerts := db.alerts ++ [newAlert db m now t (trailingAvg db m) (deviationPct db m t)] } := by
  unfold deviationPct at hp ⊢
  unfold check_abnormal
  rw [ht]
  simp only [if_neg (not_le.mpr havg), if_pos hp]

lemma check_abnormal_readings (now m : String) (db : DB) :
    (check_abnormal now m db).readings = db.readings := by
  unfold check_abnormal
  cases latestConsumption db m with
  | none => rfl
  | some t =>
    simp only
    split
    · rfl
    · split <;> rfl

lemma check_abnormal_meters (now m : String) (db : DB) :
    (check_abnormal now m db).meters = db.meters := by
  unfold check_abnormal
  cases latestConsumption db m with
  | none => rfl
  | some t =>
    simp only
    split
    · rfl
    · split <;> rfl

lemma check_abnormal_alerts_cases (now m : String) (db : DB) :
    (check_abnormal now m db).alerts = db.alerts ∨
      ∃ a, (check_abnormal now m db).alerts = db.alerts ++ [a] := by
  unfold check_abnormal
  cases latestConsumption db m with
  | none => exact Or.inl rfl
  | some t =>
    simp only
    split
    · exact Or.inl rfl
    · split
      · exact Or.inr ⟨_, rfl⟩
      · exact Or.inl rfl

lemma trailingAvg_of_short {db : DB} {m : String}
    (h : (db.readings.filter (fun r => r.meter_id == m)).length < 2) :
    trailingAvg db m = 0 := by
  have hw : trailingWindow db m = [] := by
    unfold trailingWindow consDesc
    have hd : ((((db.readings.filter (fun r => r.meter_id == m)).map
        (fun r => r.consumption)).reverse).drop 1) = [] := by
      apply List.eq_nil_of_length_eq_zero
      simp only [List.length_drop, List.length_reverse, List.length_map]
      omega
    rw [hd]
    rfl
  unfold trailingAvg
  rw [hw]
  rfl

/-- C1: whenever the trailing average of the up-to-7 readings preceding the
latest one is strictly positive, `check_abnormal` leaves the readings alone
and appends exactly one OPEN alert — carrying the meter id, the timestamp,
the latest consumption, the average rounded to 2 decimals and the
percentage deviation `((latest - average) / average) * 100` rounded to 2
decimals — if and only if that percentage is ≥ 30; below 30 it changes
nothing. -/
theorem check_abnormal_alert_iff (db : DB) (m now : String) (t : ℚ)
    (ht : latestConsumption db m = some t) (havg : 0 < trailingAvg db m) :
    (check_abnormal now m db).readings = db.readings ∧
    (30 ≤ deviationPct db m t →
      (check_abnormal now m db).alerts = db.alerts ++
        [{ id := db.alerts.length + 1, meter_id := m, date := now, consumption := t,
           average := round2 (trailingAvg db m),
           percentage := round2 (deviationPct db m t), status := "OPEN" }]) ∧
    (deviationPct db m t < 30 → check_abnormal now m db = db) := by
  refine ⟨check_abnormal_readings now m db, ?_, ?_⟩
  · intro hp
    rw [check_abnormal_fires now ht havg hp]
    rfl
  · intro hp
    exact check_abnormal_of_lt30 now ht havg hp

/-- Witness for C1, the spec's own example: 8 readings
[10,10,10,10,10,10,10,20]; the preceding-7 average is 10 > 0, the deviation
is 100 ≥ 30, and exactly the alert with average 10.00 and percentage 100.00
is appended. -/
theorem check_abnormal_alert_iff_witness :
    latestConsumption (sampleDb [10,10,10,10,10,10,10,20]) "M1" = some 20 ∧
    0 < trailingAvg (sampleDb [10,10,10,10,10,10,10,20]) "M1" ∧
    ((check_abnormal "2025-01-08 09:00" "M1" (sampleDb [10,10,10,10,10,10,10,20])).readings =
        (sampleDb [10,10,10,10,10,10,10,20]).readings ∧
     (30 ≤ deviationPct (sampleDb [10,10,10,10,10,10,10,20]) "M1" 20 →
       (check_abnormal "2025-01-08 09:00" "M1" (sampleDb [10,10,10,10,10,10,10,20])).alerts =
         (sampleDb [10,10,10,10,10,10,10,20]).alerts ++
           [{ id := (sampleDb [10,10,10,10,10,10,10,20]).alerts.length + 1, meter_id := "M1",
              date := "2025-01-08 09:00", consumption := 20,
              average := round2 (trailingAvg (sampleDb [10,10,10,10,10,10,10,20]) "M1"),
              percentage := round2 (deviationPct (sampleDb [10,10,10,10,10,10,10,20]) "M1" 20),
              status := "OPEN" }]) ∧
     (deviationPct (sampleDb [10,10,10,10,10,10,10,20]) "M1" 20 < 30 →
       check_abnormal "2025-01-08 09:00" "M1" (sampleDb [10,10,10,10,10,10,10,20]) =
         sampleDb [10,10,10,10,10,10,10,20])) :=
  ⟨by with_unfolding_all decide, by with_unfolding_all decide,
   check_abnormal_alert_iff (sampleDb [10,10,10,10,10,10,10,20]) "M1" "2025-01-08 09:00" 20
     (by with_unfolding_all decide) (by with_unfolding_all decide)⟩

/-- C3: with no reading, or fewer than 2 readings, or a trailing average
≤ 0, `check_abnormal` returns the state unchanged — it never reaches the
division or the alert insert. -/
theorem check_abnormal_skip (db : DB) (m now : String)
    (h : (db.readings.filter (fun r => r.meter_id == m)).length < 2 ∨ trailingAvg db m ≤ 0) :
    check_abnormal now m db = db := by
  rcases h with h | h
  · exact check_abnormal_of_nonpos now (le_of_eq (trailingAvg_of_short h))
  · exact check_abnormal_of_nonpos now h

/-- Witness for C3: a meter with a single reading is never alerted on. -/
theorem check_abnormal_skip_witness :
    ((sampleDb [10]).readings.filter (fun r => r.meter_id == "M1")).length < 2 ∧
    check_abnormal "2025-01-02 09:00" "M1" (sampleDb [10]) = sampleDb [10] :=
  ⟨by with_unfolding_all decide,
   check_abnormal_skip (sampleDb [10]) "M1" "2025-01-02 09:00"
     (Or.inl (by with_unfolding_all decide))⟩

/-- C4: only upward deviations trigger: with a strictly positive trailing
average, any percentage deviation below 30 — negative ones of any size
included — leaves the state untouched, so no alert is inserted. -/
theorem check_abnormal_below_threshold (db : DB) (m now : String) (t : ℚ)
    (ht : latestConsumption db m = some t) (havg : 0 < trailingAvg db m)
    (hp : deviationPct db m t < 30) :
    check_abnormal now m db = db :=
  check_abnormal_of_lt30 now ht havg hp

/-- Witness for C4: 8 readings [10,...,10,5]: the deviation is -50 (≤ -30),
and no alert is produced. -/
theorem check_abnormal_below_threshold_witness :
    latestConsumption (sampleDb [10,10,10,10,10,10,10,5]) "M1" = some 5 ∧
    0 < trailingAvg (sampleDb [10,10,10,10,10,10,10,5]) "M1" ∧
    deviationPct (sampleDb [10,10,10,10,10,10,10,5]) "M1" 5 ≤ -30 ∧
    deviationPct (sampleDb [10,10,10,10,10,10,10,5]) "M1" 5 < 30 ∧
    check_abnormal "2025-01-08 09:00" "M1" (sampleDb [10,10,10,10,10,10,10,5]) =
      sampleDb [10,10,10,10,10,10,10,5] :=
  ⟨by with_unfolding_all decide, by with_unfolding_all decide,
   by with_unfolding_all decide, by with_unfolding_all decide,
   check_abnormal_below_threshold (sampleDb [10,10,10,10,10,10,10,5]) "M1" "2025-01-08 09:00" 5
     (by with_unfolding_all decide) (by with_unfolding_all decide)
     (by with_unfolding_all decide)⟩

/-- C10: one invocation of `check_abnormal` never touches the readings or
meters tables, keeps every pre-existing alert row in place, and appends at
most one new alert row. -/
theorem check_abnormal_frame (db : DB) (m now : String) :
    (check_abnormal now m db).readings = db.readings ∧
    (check_abnormal now m db).meters = db.meters ∧
    (∃ newRows, (check_abnormal now m db).alerts = db.alerts ++ newRows ∧
      newRows.length ≤ 1) := by
  refine ⟨check_abnormal_readings now m db, check_abnormal_meters now m db, ?_⟩
  rcases check_abnormal_alerts_cases now m db with h | ⟨a, h⟩
  · exact ⟨[], by simpa using h, by simp⟩
  · exact ⟨[a], h, by simp⟩

/-! ## Alert lifecycle: the UPDATE statements name columns `init_db` never
creates, so sqlite3 rejects them. -/

lemma acknowledge_alert_eq (now : String) (aid : Nat) (db : DB) :
    acknowledge_alert now aid db = Except.error "no such column: acknowledged_by" := rfl

lemma close_alert_eq (now : String) (aid : Nat) (db : DB) :
    close_alert now aid db = Except.error "no such column: closed_by" := rfl

/-- C2 (code bug): on any database whose `alerts` table is the one
`init_db` creates, acknowledging or closing any alert — whatever its id or
status — does not set any status or record any identity/timestamp: the
UPDATE names the columns `acknowledged_by`/`acknowledged_at`
(resp. `closed_by`/`closed_at`), which `init_db` never creates, so sqlite3
raises `OperationalError: no such column` and the request fails with the
table unchanged. -/
theorem lifecycle_updates_always_error (now : String) (aid : Nat) (db : DB) :
    acknowledge_alert now aid db = Except.error "no such column: acknowledged_by" ∧
    close_alert now aid db = Except.error "no such column: closed_by" ∧
    (∀ db2, acknowledge_alert now aid db = Except.ok db2 → False) ∧
    (∀ db2, close_alert now aid db = Except.ok db2 → False) := by
  refine ⟨acknowledge_alert_eq now aid db, close_alert_eq now aid db, ?_, ?_⟩
  · intro db2 h
    rw [acknowledge_alert_eq] at h
    exact Except.noConfusion h
  · intro db2 h
    rw [close_alert_eq] at h
    exact Except.noConfusion h

/-- Witness for C2's failing input: a database holding one OPEN alert with
id 1; acknowledging alert 1 still fails with the missing-column error. -/
theorem lifecycle_updates_always_error_witness :
    acknowledge_alert "2025-01-08 10:00" 1
        { meters := [], readings := [],
          alerts := [{ id := 1, meter_id := "M1", date := "2025-01-08 09:00",
                       consumption := 20, average := 10, percentage := 100,
                       status := "OPEN" }] } =
      Except.error "no such column: acknowledged_by" :=
  (lifecycle_updates_always_error "2025-01-08 10:00" 1
    { meters := [], readings := [],
      alerts := [{ id := 1, meter_id := "M1", date := "2025-01-08 09:00",
                   consumption := 20, average := 10, percentage := 100,
                   status := "OPEN" }] }).1

/-- C8: when the opening or closing form field does not parse as a number,
the `float(...)` conversion error aborts the request before the INSERT is
reached: the route returns the uncaught-error outcome and never a new
storage state, so the readings table is unchanged. -/
theorem add_reading_route_malformed (pf : String → Option ℚ)
    (now m openingS closingS eb ei : String) (img : Option String) (db : DB)
    (h : pf openingS = none ∨ pf closingS = none) :
    add_reading_route pf now m openingS closingS eb ei img db = Except.error "ValueError" ∧
    ∀ db2, add_reading_route pf now m openingS closingS eb ei img db = Except.ok db2 → False := by
  have herr : add_reading_route pf now m openingS closingS eb ei img db =
      Except.error "ValueError" := by
    unfold add_reading_route
    rcases h with h | h
    · rw [h]
    · cases hpo : pf openingS with
      | none => rfl
      | some o =>
        rw [h]
  refine ⟨herr, ?_⟩
  intro db2 hc
  rw [herr] at hc
  exact Except.noConfusion hc

/-- Witness for C8: a non-numeric opening field on an empty database. -/
theorem add_reading_route_malformed_witness :
    (fun _ : String => (none : Option ℚ)) "abc" = none ∧
    add_reading_route (fun _ : String => (none : Option ℚ))
      "2025-01-01 00:00" "M1" "abc" "42" "op" "E1" none DB.empty =
      Except.error "ValueError" :=
  ⟨rfl,
   (add_reading_route_malformed (fun _ : String => (none : Option ℚ))
     "2025-01-01 00:00" "M1" "abc" "42" "op" "E1" none DB.empty (Or.inl rfl)).1⟩

/-- C9: the dashboard request only reads: it leaves the storage state it
found untouched, and running it again on that state — with the same
current day and month strings — produces the identical statistics
(alert counts, totals, today/month sums, daily and monthly series). -/
theorem homeReq_idempotent (today month : String) (db : DB) :
    (homeReq today month db).2 = db ∧
    (homeReq today month ((homeReq today month db).2)).1 = (homeReq today month db).1 :=
  ⟨rfl, rfl⟩

/-! ## The stored consumption of a reading is never recomputed -/

lemma add_reading_readings (now m : String) (opening closing : ℚ)
    (eb ei : String) (img : Option String) (db : DB) :
    (add_reading now m opening closing eb ei img db).readings =
      db.readings ++ [mkReading db m now opening closing eb ei img] := by
  unfold add_reading
  rw [check_abnormal_readings]

lemma applyOp_readings_mono (op : Op) (db : DB) :
    ∃ t, (applyOp op db).readings = db.readings ++ t := by
  cases op with
  | addMeter m lt loc u =>
    refine ⟨[], ?_⟩
    simp only [applyOp]
    unfold add_meter
    split
    · simp [Except.toOption]
    · simp [Except.toOption]
  | addReading now m o c eb ei img =>
    exact ⟨[mkReading db m now o c eb ei img], add_reading_readings now m o c eb ei img db⟩
  | checkAbnormal now m =>
    refine ⟨[], ?_⟩
    simp only [applyOp]
    rw [check_abnormal_readings]
    simp
  | ack now aid =>
    refine ⟨[], ?_⟩
    simp only [applyOp, acknowledge_alert_eq, Except.toOption]
    simp
  | close now aid =>
    refine ⟨[], ?_⟩
    simp only [applyOp, close_alert_eq, Except.toOption]
    simp

lemma run_readings_mono (ops : List Op) (db : DB) :
    ∃ t, (run ops db).readings = db.readings ++ t := by
  induction ops generalizing db with
  | nil => exact ⟨[], by simp [run]⟩
  | cons op ops ih =>
    obtain ⟨t1, h1⟩ := applyOp_readings_mono op db
    obtain ⟨t2, h2⟩ := ih (applyOp op db)
    refine ⟨t1 ++ t2, ?_⟩
    have hrun : run (op :: ops) db = run ops (applyOp op db) := rfl
    rw [hrun, h2, h1, List.append_assoc]

/-- C5: the reading persisted by `add_reading` stores
`consumption = closing - opening` for the opening/closing pair given at
insertion time — any pair, no `opening ≤ closing` check — and after any
later sequence of operations (meter or reading inserts, anomaly checks,
alert acknowledgements or closes) the row is still there, unmodified. -/
theorem add_reading_consumption_persistent (db : DB) (now m : String)
    (opening closing : ℚ) (eb ei : String) (img : Option String) (ops : List Op) :
    (mkReading db m now opening closing eb ei img).consumption = closing - opening ∧
    (add_reading now m opening closing eb ei img db).readings =
      db.readings ++ [mkReading db m now opening closing eb ei img] ∧
    (run ops (add_reading now m opening closing eb ei img db)).readings[db.readings.length]? =
      some (mkReading db m now opening closing eb ei img) := by
  refine ⟨rfl, add_reading_readings now m opening closing eb ei img db, ?_⟩
  obtain ⟨t, ht⟩ := run_readings_mono ops (add_reading now m opening closing eb ei img db)
  rw [ht, add_reading_readings now m opening closing eb ei img db, List.append_assoc]
  rw [List.getElem?_append_right (le_refl db.readings.length)]
  simp

example :
    (add_reading "2025-01-01 00:00" "M1" 50 20 "op" "E1" none DB.empty).readings.map
      (fun r => r.consumption) = [-30] := by
  with_unfolding_all decide

/-! ## Dashboard KPI sums -/

lemma ifnull_sqlSum (l : List ℚ) : ifnull (sqlSum l) 0 = l.sum := by
  unfold ifnull sqlSum
  split
  · next h =>
    rw [List.isEmpty_iff] at h
    simp [h]
  · rfl

lemma round2_zero : round2 0 = 0 := by
  unfold round2
  norm_num

/-- C6: the dashboard's today and month consumption KPIs are exactly the
sums of `consumption` over the readings whose date string starts with the
current day (resp. month) prefix, rounded to 2 decimals; when no reading
matches the prefix the KPI is the number 0, not NULL and not an error. -/
theorem home_kpi_sums (db : DB) (today month : String) :
    (home today month db).today_consumption =
      round2 (((db.readings.filter (fun r => strPref today r.date)).map
        (fun r => r.consumption)).sum) ∧
    (home today month db).month_consumption =
      round2 (((db.readings.filter (fun r => strPref month r.date)).map
        (fun r => r.consumption)).sum) ∧
    (db.readings.filter (fun r => strPref today r.date) = [] →
      (home today month db).today_consumption = 0) ∧
    (db.readings.filter (fun r => strPref month r.date) = [] →
      (home today month db).month_consumption = 0) := by
  have htoday : (home today month db).today_consumption =
      round2 (((db.readings.filter (fun r => strPref today r.date)).map
        (fun r => r.consumption)).sum) := by
    show round2 (sumWithDatePref db today) = _
    unfold sumWithDatePref
    rw [ifnull_sqlSum]
  have hmonth : (home today month db).month_consumption =
      round2 (((db.readings.filter (fun r => strPref month r.date)).map
        (fun r => r.consumption)).sum) := by
    show round2 (sumWithDatePref db month) = _
    unfold sumWithDatePref
    rw [ifnull_sqlSum]
  refine ⟨htoday, hmonth, ?_, ?_⟩
  · intro hnil
    rw [htoday, hnil]
    simpa using round2_zero
  · intro hnil
    rw [hmonth, hnil]
    simpa using round2_zero

/-- Witness for C6: one reading of 10 on 2025-01-01; the day sum is 10.00
and the (empty) 2025-02 month sum is 0. -/
theorem home_kpi_sums_witness :
    (home "2025-01-01" "2025-02" (sampleDb [10])).today_consumption =
      round2 ((((sampleDb [10]).readings.filter
        (fun r => strPref "2025-01-01" r.date)).map (fun r => r.consumption)).sum) ∧
    (sampleDb [10]).readings.filter (fun r => strPref "2025-02" r.date) = [] ∧
    (home "2025-01-01" "2025-02" (sampleDb [10])).month_consumption = 0 ∧
    (home "2025-01-01" "2025-02" (sampleDb [10])).today_consumption = 10 :=
  ⟨(home_kpi_sums (sampleDb [10]) "2025-01-01" "2025-02").1,
   by with_unfolding_all decide,
   (home_kpi_sums (sampleDb [10]) "2025-01-01" "2025-02").2.2.2
     (by with_unfolding_all decide),
   by with_unfolding_all decide⟩

/-! ## The daily chart series -/

/-- The descending comparator of the daily query is transitive and total,
so `mergeSort` really sorts: the key list is pairwise ≥. -/
lemma mergeSortDesc_pairwise (l : List String) :
    (l.mergeSort (fun a b => decide (b ≤ a))).Pairwise (fun a b => b ≤ a) := by
  have h := @List.sorted_mergeSort String (fun a b : String => decide (b ≤ a))
    (fun a b c h1 h2 => by
      simp only [decide_eq_true_eq] at h1 h2 ⊢
      exact le_trans h2 h1)
    (fun a b => by
      simp only [Bool.or_eq_true, decide_eq_true_eq]
      exact le_total b a)
    l
  exact h.imp (fun hab => of_decide_eq_true hab)

lemma mergeSortDesc_nodup {l : List String} (h : l.Nodup) :
    (l.mergeSort (fun a b => decide (b ≤ a))).Nodup :=
  ((List.mergeSort_perm l _).symm).nodup h

lemma mergeSortDesc_pairwise_gt {l : List String} (h : l.Nodup) :
    (l.mergeSort (fun a b => decide (b ≤ a))).Pairwise (fun a b => b < a) := by
  have h1 := (mergeSortDesc_pairwise l).and (mergeSortDesc_nodup h)
  exact h1.imp (fun hab => lt_of_le_of_ne hab.1 (fun e => hab.2 e.symm))

lemma daily_labels_eq (db : DB) (today month : String) :
    (home today month db).daily_labels =
      (((dayKeys db).mergeSort (fun a b => decide (b ≤ a))).take 7).reverse := by
  show ((dailyDesc db).reverse).map Prod.fst = _
  unfold dailyDesc
  rw [List.map_reverse, List.map_take, List.map_map]
  have hid : (Prod.fst ∘ fun k => (k, daySum db k)) = id := rfl
  rw [hid, List.map_id]

lemma daily_values_eq (db : DB) (today month : String) :
    (home today month db).daily_values =
      (home today month db).daily_labels.map (fun k => round2 (daySum db k)) := by
  rw [daily_labels_eq]
  show ((dailyDesc db).reverse).map (fun p => round2 p.snd) = _
  unfold dailyDesc
  rw [List.map_reverse, List.map_take, List.map_map, List.map_reverse, List.map_take]
  rfl

/-- C7: the daily chart lists the last 7 distinct calendar days that have
readings: its labels are distinct days with readings, in strictly ascending
(chronological) order after the descending fetch is reversed; there are
`min (number of distinct days) 7` of them; every distinct day left out is
older than every day charted; and each value is that day's consumption sum
rounded to 2 decimals. -/
theorem home_daily_series (db : DB) (today month : String) :
    (home today month db).daily_labels.Pairwise (fun a b => a < b) ∧
    (∀ l ∈ (home today month db).daily_labels, l ∈ dayKeys db) ∧
    (home today month db).daily_labels.length = min (dayKeys db).length 7 ∧
    (∀ d ∈ dayKeys db, d ∉ (home today month db).daily_labels →
      ∀ l ∈ (home today month db).daily_labels, d < l) ∧
    (home today month db).daily_values =
      (home today month db).daily_labels.map (fun k => round2 (daySum db k)) := by
  have hperm : ((dayKeys db).mergeSort (fun a b => decide (b ≤ a))).Perm (dayKeys db) :=
    List.mergeSort_perm (dayKeys db) _
  have hgt := mergeSortDesc_pairwise_gt (List.nodup_dedup (db.readings.map dayOf))
  rw [daily_labels_eq, daily_values_eq, daily_labels_eq]
  refine ⟨?_, ?_, ?_, ?_, rfl⟩
  · rw [List.pairwise_reverse]
    exact List.Pairwise.sublist (List.take_sublist 7 _) hgt
  · intro l hl
    rw [List.mem_reverse] at hl
    exact hperm.mem_iff.mp ((List.take_sublist 7 _).subset hl)
  · rw [List.length_reverse, List.length_take, hperm.length_eq]
    exact Nat.min_comm 7 (dayKeys db).length
  · intro d hd hnot l hl
    rw [List.mem_reverse] at hnot hl
    have hdmem : d ∈ ((dayKeys db).mergeSort (fun a b => decide (b ≤ a))) :=
      hperm.mem_iff.mpr hd
    have hsplit := List.take_append_drop 7 ((dayKeys db).mergeSort (fun a b => decide (b ≤ a)))
    have happ : List.Pairwise (fun a b => b < a)
        ((((dayKeys db).mergeSort (fun a b => decide (b ≤ a))).take 7) ++
         (((dayKeys db).mergeSort (fun a b => decide (b ≤ a))).drop 7)) := by
      rw [hsplit]
      exact hgt
    have hdrop : d ∈ (((dayKeys db).mergeSort (fun a b => decide (b ≤ a))).drop 7) := by
      rw [← hsplit] at hdmem
      rcases List.mem_append.mp hdmem with h | h
      · exact absurd h hnot
      · exact h
    exact (List.pairwise_append.mp happ).2.2 l hl d hdrop

/-- Readings on 8 distinct calendar days (2025-01-01 … 2025-01-08), one per
day, consumption i on day i. -/
def daysDb : DB :=
  { meters := [], alerts := [],
    readings := [
      { id := 1, meter_id := "M1", date := "2025-01-01 00:00", opening := 0, closing := 1,
        consumption := 1, entered_by := "op", employee_id := "E1", image := none },
      { id := 2, meter_id := "M1", date := "2025-01-02 00:00", opening := 1, closing := 3,
        consumption := 2, entered_by := "op", employee_id := "E1", image := none },
      { id := 3, meter_id := "M1", date := "2025-01-03 00:00", opening := 3, closing := 6,
        consumption := 3, entered_by := "op", employee_id := "E1", image := none },
      { id := 4, meter_id := "M1", date := "2025-01-04 00:00", opening := 6, closing := 10,
        consumption := 4, entered_by := "op", employee_id := "E1", image := none },
      { id := 5, meter_id := "M1", date := "2025-01-05 00:00", opening := 10, closing := 15,
        consumption := 5, entered_by := "op", employee_id := "E1", image := none },
      { id := 6, meter_id := "M1", date := "2025-01-06 00:00", opening := 15, closing := 21,
        consumption := 6, entered_by := "op", employee_id := "E1", image := none },
      { id := 7, meter_id := "M1", date := "2025-01-07 00:00", opening := 21, closing := 28,
        consumption := 7, entered_by := "op", employee_id := "E1", image := none },
      { id := 8, meter_id := "M1", date := "2025-01-08 00:00", opening := 28, closing := 36,
        consumption := 8, entered_by := "op", employee_id := "E1", image := none }] }

/-- Witness for C7: with 8 distinct days, the chart holds the 7 most recent
ones in ascending order, and the omitted day 2025-01-01 is older than every
charted day. -/
theorem home_daily_series_witness :
    (home "2025-01-08" "2025-01" daysDb).daily_labels =
      ["2025-01-02", "2025-01-03", "2025-01-04", "2025-01-05", "2025-01-06",
       "2025-01-07", "2025-01-08"] ∧
    "2025-01-01" ∈ dayKeys daysDb ∧
    "2025-01-01" ∉ (home "2025-01-08" "2025-01" daysDb).daily_labels ∧
    (∀ l ∈ (home "2025-01-08" "2025-01" daysDb).daily_labels, "2025-01-01" < l) ∧
    (home "2025-01-08" "2025-01" daysDb).daily_values =
      (home "2025-01-08" "2025-01" daysDb).daily_labels.map (fun k => round2 (daySum daysDb k)) :=
  ⟨by with_unfolding_all decide, by with_unfolding_all decide,
   by with_unfolding_all decide,
   (home_daily_series daysDb "2025-01-08" "2025-01").2.2.2.1 "2025-01-01"
     (by with_unfolding_all decide) (by with_unfolding_all decide),
   (home_daily_series daysDb "2025-01-08" "2025-01").2.2.2.2⟩
